import Mathlib

/-!
Shallow embedding of the picket-node client (src/index.ts, latest revision,
`picket-node/0.0.10`) and verification of its request/response contract.

JavaScript semantics conventions used throughout:
* a required string field that may be absent at runtime is a `String`, with the
  empty string `""` standing for both "" and `undefined` (both are falsy under
  the `!x` checks the code performs on its required string inputs);
* an optional field (`field?:` in TypeScript, `undefined` when omitted) is an
  `Option _`; destructuring defaults (`chain = ChainTypes.ETH`) become
  `Option.getD`, which fires exactly when the property is `undefined`;
* `JSON.stringify` of an object literal drops `undefined`-valued properties,
  modelled by `optField`;
* a method body is split into its synchronous request-building phase (which can
  throw, locally reject, or issue one HTTP request: `CallStep`) and its
  response-classification phase (a pure function of the HTTP status and the
  parsed JSON body).
-/

/-- JSON values, for request bodies and parsed response bodies. -/
inductive JValue where
  | str : String → JValue
  | num : Int → JValue
  | bool : Bool → JValue
  | arr : List JValue → JValue
  | obj : List (String × JValue) → JValue

/-- Field lookup on a JSON value: `v.k` in JavaScript, `none` when the value is
not an object or lacks the field (i.e. `undefined`). -/
def JValue.getField : JValue → String → Option JValue
  | JValue.obj fields, k => (fields.find? (fun kv => kv.1 = k)).map (fun kv => kv.2)
  | _, _ => none

/-- `JSON.stringify` drops `undefined`-valued properties: an optional field
contributes its key/value pair only when present. -/
def optField (k : String) : Option JValue → List (String × JValue)
  | none => []
  | some v => [(k, v)]

/-- `export const API_VERSION = "v1"`. -/
def API_VERSION : String := "v1"

/-- `const BASE_API_URL = `https://picketapi.com/api/${API_VERSION}``. -/
def BASE_API_URL : String := "https://picketapi.com/api/" ++ API_VERSION

/-- `ChainTypes.ETH = "ethereum"` (the string values of the `ChainTypes` enum). -/
def ChainTypes.ETH : String := "ethereum"

/-- `ChainTypes.SOL = "solana"`. -/
def ChainTypes.SOL : String := "solana"

/-- The base64 alphabet, indices 0–63. -/
def base64Alphabet : List Char :=
  "ABCDEFGHIJKLMNOPQRSTUVWXYZabcdefghijklmnopqrstuvwxyz0123456789+/".toList

/-- The base64 digit for a 6-bit value. -/
def b64Digit (n : Nat) : Char := base64Alphabet.getD n 'A'

/-- Standard base64 with padding over a byte list (each `Nat` is one byte),
as produced by `Buffer.prototype.toString("base64")`. -/
def base64EncodeBytes : List Nat → List Char
  | [] => []
  | [a] => [b64Digit (a / 4), b64Digit (a % 4 * 16), '=', '=']
  | [a, b] => [b64Digit (a / 4), b64Digit (a % 4 * 16 + b / 16), b64Digit (b % 16 * 4), '=']
  | a :: b :: c :: rest =>
      b64Digit (a / 4) :: b64Digit (a % 4 * 16 + b / 16) ::
      b64Digit (b % 16 * 4 + c / 64) :: b64Digit (c % 64) :: base64EncodeBytes rest

/-- UTF-8 encoding of one character (code point), as a byte list. -/
def charUtf8 (c : Char) : List Nat :=
  let n := c.toNat
  if n < 128 then [n]
  else if n < 2048 then [192 + n / 64, 128 + n % 64]
  else if n < 65536 then [224 + n / 4096, 128 + n / 64 % 64, 128 + n % 64]
  else [240 + n / 262144, 128 + n / 4096 % 64, 128 + n / 64 % 64, 128 + n % 64]

/-- UTF-8 bytes of a string (`Buffer.from(s)` interprets `s` as UTF-8). -/
def utf8Bytes (s : String) : List Nat := (s.toList.map charUtf8).flatten

/-- `Buffer.from(s).toString("base64")`: base64 of the UTF-8 bytes of `s`. -/
def base64Encode (s : String) : String := String.mk (base64EncodeBytes (utf8Bytes s))

/-- `const isSuccessfulStatusCode = (status) => status >= 200 && status < 300;` -/
def isSuccessfulStatusCode (status : Nat) : Bool :=
  decide (200 ≤ status) && decide (status < 300)

/-- One HTTP request as handed to `fetch`: method, url, headers, optional body. -/
structure HttpRequest where
  method : String
  url : String
  headers : List (String × String)
  body : Option JValue

/-- The synchronous outcome of a client method before any response arrives:
a thrown local error, a locally rejected promise, or a single issued request. -/
inductive CallStep where
  | thrown : String → CallStep
  | rejected : String → CallStep
  | send : HttpRequest → CallStep

/-- The `Picket` class state: `baseURL` and the private `#apiKey`. -/
structure Picket where
  baseURL : String
  apiKey : String

/-- The `Picket` constructor: `if (!apiKey) throw new Error("Missing secret key")`,
otherwise a client with the fixed base URL and the given key. -/
def Picket.make (apiKey : String) : Except String Picket :=
  if apiKey = "" then Except.error "Missing secret key"
  else Except.ok { baseURL := BASE_API_URL, apiKey := apiKey }

/-- `#defaultHeaders`: User-Agent, Content-Type, and
`Authorization: Basic <base64(apiKey)>`. -/
def Picket.defaultHeaders (p : Picket) : List (String × String) :=
  [("User-Agent", "picket-node/0.0.10"),
   ("Content-Type", "application/json"),
   ("Authorization", "Basic " ++ base64Encode p.apiKey)]

/-- `NonceRequest`: `chain`, `walletAddress`, optional `locale`. The runtime
destructuring default on `chain` means `undefined` is handled, so `chain` is
modelled as optional. -/
structure NonceRequest where
  chain : Option String
  walletAddress : String
  locale : Option String

/-- `AuthRequest`: chain (runtime default), walletAddress, signature, optional
requirements and signing context (both passed through opaquely as JSON). -/
structure AuthRequest where
  chain : Option String
  walletAddress : String
  signature : String
  requirements : Option JValue
  context : Option JValue

/-- Argument object of `authz`: accessToken, requirements, optional revalidate
(default `false`). -/
structure AuthzRequest where
  accessToken : String
  requirements : Option JValue
  revalidate : Option Bool

/-- `TokenOwnershipRequest`: optional chain (runtime default), walletAddress,
contractAddress (checked with `!contractAddress`, so absent or empty both
fail), optional tokenIds and minTokenBalance. -/
structure TokenOwnershipRequest where
  chain : Option String
  walletAddress : String
  contractAddress : Option String
  tokenIds : Option (List String)
  minTokenBalance : Option JValue

/-- JavaScript falsiness of a possibly-absent string: `undefined` and `""`. -/
def strFalsy : Option String → Bool
  | none => true
  | some s => s = ""

/-- `nonce`: no local validation; POSTs `{chain, walletAddress}` to
`/auth/nonce` (the `locale` field is never read). -/
def Picket.nonce (p : Picket) (r : NonceRequest) : CallStep :=
  let chain := r.chain.getD ChainTypes.ETH
  CallStep.send
    { method := "POST"
      url := p.baseURL ++ "/auth/nonce"
      headers := p.defaultHeaders
      body := some (JValue.obj
        [("chain", JValue.str chain),
         ("walletAddress", JValue.str r.walletAddress)]) }

/-- `auth`: throws when walletAddress or signature is falsy, otherwise POSTs
`{chain, walletAddress, signature, requirements, context}` to `/auth`. -/
def Picket.auth (p : Picket) (r : AuthRequest) : CallStep :=
  let chain := r.chain.getD ChainTypes.ETH
  if r.walletAddress = "" then
    CallStep.thrown "walletAddress parameter is required - see docs for reference."
  else if r.signature = "" then
    CallStep.thrown "signature parameter is required - see docs for reference."
  else
    CallStep.send
      { method := "POST"
        url := p.baseURL ++ "/auth"
        headers := p.defaultHeaders
        body := some (JValue.obj
          ([("chain", JValue.str chain),
            ("walletAddress", JValue.str r.walletAddress),
            ("signature", JValue.str r.signature)]
           ++ optField "requirements" r.requirements
           ++ optField "context" r.context)) }

/-- `authz`: throws when accessToken or requirements is falsy, otherwise POSTs
`{accessToken, requirements, revalidate}` to `/authz`. -/
def Picket.authz (p : Picket) (r : AuthzRequest) : CallStep :=
  if r.accessToken = "" then
    CallStep.thrown "accessToken parameter is required - see docs for reference."
  else
    match r.requirements with
    | none => CallStep.thrown "requirements parameter is required - see docs for reference."
    | some reqs =>
        CallStep.send
          { method := "POST"
            url := p.baseURL ++ "/authz"
            headers := p.defaultHeaders
            body := some (JValue.obj
              [("accessToken", JValue.str r.accessToken),
               ("requirements", reqs),
               ("revalidate", JValue.bool (r.revalidate.getD false))]) }

/-- `validate`: returns `Promise.reject("access token is empty")` on an empty
token, otherwise POSTs `{accessToken, requirements}` to `/auth/validate`. -/
def Picket.validate (p : Picket) (accessToken : String)
    (requirements : Option JValue) : CallStep :=
  if accessToken = "" then
    CallStep.rejected "access token is empty"
  else
    CallStep.send
      { method := "POST"
        url := p.baseURL ++ "/auth/validate"
        headers := p.defaultHeaders
        body := some (JValue.obj
          ([("accessToken", JValue.str accessToken)]
           ++ optField "requirements" requirements)) }

/-- `tokenOwnership`: requires walletAddress; for solana requires `tokenIds`
(array presence, `!tokenIds`), for every other chain requires a truthy
`contractAddress`; then POSTs `{contractAddress, minTokenBalance, tokenIds}`
to `/chains/{chain}/wallets/{walletAddress}/tokenOwnership`. -/
def Picket.tokenOwnership (p : Picket) (r : TokenOwnershipRequest) : CallStep :=
  let chain := r.chain.getD ChainTypes.ETH
  if r.walletAddress = "" then
    CallStep.thrown "walletAddress parameter is required - see docs for reference."
  else if chain = ChainTypes.SOL ∧ r.tokenIds = none then
    CallStep.thrown
      ("tokenIds parameter is required for " ++ ChainTypes.SOL ++ " - see docs for reference.")
  else if chain ≠ ChainTypes.SOL ∧ strFalsy r.contractAddress then
    CallStep.thrown "contractAddress parameter is required for EVM chains - see docs for reference."
  else
    CallStep.send
      { method := "POST"
        url := p.baseURL ++ "/chains/" ++ chain ++ "/wallets/" ++ r.walletAddress
                 ++ "/tokenOwnership"
        headers := p.defaultHeaders
        body := some (JValue.obj
          (optField "contractAddress" ((r.contractAddress).map JValue.str)
           ++ optField "minTokenBalance" r.minTokenBalance
           ++ optField "tokenIds" ((r.tokenIds).map (fun l => JValue.arr (l.map JValue.str))))) }

/-- `chainInfo`: no local validation; GETs `/chains/{chain}`. -/
def Picket.chainInfo (p : Picket) (chain : String) : CallStep :=
  CallStep.send
    { method := "GET"
      url := p.baseURL ++ "/chains/" ++ chain
      headers := p.defaultHeaders
      body := none }

/-- `chains`: no input; GETs `/chains`. -/
def Picket.chains (p : Picket) : CallStep :=
  CallStep.send
    { method := "GET"
      url := p.baseURL ++ "/chains"
      headers := p.defaultHeaders
      body := none }

/-- Response phase of `nonce`: resolve the parsed body on a successful status,
reject with the parsed body otherwise. -/
def Picket.nonceResult (status : Nat) (data : JValue) : Except JValue JValue :=
  if isSuccessfulStatusCode status then Except.ok data else Except.error data

/-- Response phase of `auth`. -/
def Picket.authResult (status : Nat) (data : JValue) : Except JValue JValue :=
  if isSuccessfulStatusCode status then Except.ok data else Except.error data

/-- Response phase of `authz`. -/
def Picket.authzResult (status : Nat) (data : JValue) : Except JValue JValue :=
  if isSuccessfulStatusCode status then Except.ok data else Except.error data

/-- Response phase of `validate`. -/
def Picket.validateResult (status : Nat) (data : JValue) : Except JValue JValue :=
  if isSuccessfulStatusCode status then Except.ok data else Except.error data

/-- Response phase of `tokenOwnership`. -/
def Picket.tokenOwnershipResult (status : Nat) (data : JValue) : Except JValue JValue :=
  if isSuccessfulStatusCode status then Except.ok data else Except.error data

/-- Response phase of `chainInfo`. -/
def Picket.chainInfoResult (status : Nat) (data : JValue) : Except JValue JValue :=
  if isSuccessfulStatusCode status then Except.ok data else Except.error data

/-- Response phase of `chains`: on success the `data` member of the parsed body
(`undefined`, i.e. `none`, when absent), on failure the parsed body. -/
def Picket.chainsResult (status : Nat) (data : JValue) :
    Except JValue (Option JValue) :=
  if isSuccessfulStatusCode status then Except.ok (data.getField "data")
  else Except.error data

/-- The request `req` is one actually issued by some operation of client `p`. -/
def IssuedBy (p : Picket) (req : HttpRequest) : Prop :=
  (∃ r, p.nonce r = CallStep.send req) ∨
  (∃ r, p.auth r = CallStep.send req) ∨
  (∃ r, p.authz r = CallStep.send req) ∨
  (∃ t q, p.validate t q = CallStep.send req) ∨
  (∃ r, p.tokenOwnership r = CallStep.send req) ∨
  (∃ c, p.chainInfo c = CallStep.send req) ∨
  p.chains = CallStep.send req

/-- Whether a call's synchronous phase issued a network request. -/
def CallStep.isSend : CallStep → Bool
  | CallStep.send _ => true
  | _ => false

/-- A sample client, as constructed by `Picket.make "k"`. -/
def demoClient : Picket := { baseURL := BASE_API_URL, apiKey := "k" }

lemma succ_code_iff (status : Nat) :
    isSuccessfulStatusCode status = true ↔ 200 ≤ status ∧ status ≤ 299 := by
  unfold isSuccessfulStatusCode
  simp only [Bool.and_eq_true, decide_eq_true_eq]
  omega

lemma nonce_send_headers (p : Picket) (r : NonceRequest) (req : HttpRequest)
    (h : p.nonce r = CallStep.send req) : req.headers = p.defaultHeaders := by
  simp only [Picket.nonce] at h
  injection h with h'
  subst h'
  rfl

lemma auth_send_headers (p : Picket) (r : AuthRequest) (req : HttpRequest)
    (h : p.auth r = CallStep.send req) : req.headers = p.defaultHeaders := by
  simp only [Picket.auth] at h
  split at h
  · exact CallStep.noConfusion h
  · split at h
    · exact CallStep.noConfusion h
    · injection h with h'
      subst h'
      rfl

lemma authz_send_headers (p : Picket) (r : AuthzRequest) (req : HttpRequest)
    (h : p.authz r = CallStep.send req) : req.headers = p.defaultHeaders := by
  simp only [Picket.authz] at h
  split at h
  · exact CallStep.noConfusion h
  · split at h
    · exact CallStep.noConfusion h
    · injection h with h'
      subst h'
      rfl

lemma validate_send_headers (p : Picket) (t : String) (q : Option JValue)
    (req : HttpRequest) (h : p.validate t q = CallStep.send req) :
    req.headers = p.defaultHeaders := by
  simp only [Picket.validate] at h
  split at h
  · exact CallStep.noConfusion h
  · injection h with h'
    subst h'
    rfl

lemma tokenOwnership_send_headers (p : Picket) (r : TokenOwnershipRequest)
    (req : HttpRequest) (h : p.tokenOwnership r = CallStep.send req) :
    req.headers = p.defaultHeaders := by
  simp only [Picket.tokenOwnership] at h
  split at h
  · exact CallStep.noConfusion h
  · split at h
    · exact CallStep.noConfusion h
    · split at h
      · exact CallStep.noConfusion h
      · injection h with h'
        subst h'
        rfl

lemma chainInfo_send_headers (p : Picket) (c : String) (req : HttpRequest)
    (h : p.chainInfo c = CallStep.send req) : req.headers = p.defaultHeaders := by
  simp only [Picket.chainInfo] at h
  injection h with h'
  subst h'
  rfl

lemma issued_headers (p : Picket) (req : HttpRequest) (h : IssuedBy p req) :
    req.headers = p.defaultHeaders := by
  rcases h with ⟨r, hr⟩ | ⟨r, hr⟩ | ⟨r, hr⟩ | ⟨t, q, hr⟩ | ⟨r, hr⟩ | ⟨c, hr⟩ | hr
  · exact nonce_send_headers p r req hr
  · exact auth_send_headers p r req hr
  · exact authz_send_headers p r req hr
  · exact validate_send_headers p t q req hr
  · exact tokenOwnership_send_headers p r req hr
  · exact chainInfo_send_headers p c req hr
  · simp only [Picket.chains] at hr
    injection hr with h'
    subst h'
    rfl

/-- C1: for every operation (nonce, auth, authz, validate, tokenOwnership,
chainInfo, chains), a status in [200,299] resolves with the value the code
parses from the JSON body (for `chains`, its `data` member), and any status
outside that range yields a rejection carrying the parsed error body. -/
theorem response_classification (status : Nat) (data : JValue) :
    (Picket.nonceResult status data = Except.ok data ↔ 200 ≤ status ∧ status ≤ 299) ∧
    (Picket.authResult status data = Except.ok data ↔ 200 ≤ status ∧ status ≤ 299) ∧
    (Picket.authzResult status data = Except.ok data ↔ 200 ≤ status ∧ status ≤ 299) ∧
    (Picket.validateResult status data = Except.ok data ↔ 200 ≤ status ∧ status ≤ 299) ∧
    (Picket.tokenOwnershipResult status data = Except.ok data ↔ 200 ≤ status ∧ status ≤ 299) ∧
    (Picket.chainInfoResult status data = Except.ok data ↔ 200 ≤ status ∧ status ≤ 299) ∧
    (Picket.chainsResult status data = Except.ok (data.getField "data") ↔
       200 ≤ status ∧ status ≤ 299) ∧
    (Picket.nonceResult status data = Except.error data ↔ ¬(200 ≤ status ∧ status ≤ 299)) ∧
    (Picket.authResult status data = Except.error data ↔ ¬(200 ≤ status ∧ status ≤ 299)) ∧
    (Picket.authzResult status data = Except.error data ↔ ¬(200 ≤ status ∧ status ≤ 299)) ∧
    (Picket.validateResult status data = Except.error data ↔ ¬(200 ≤ status ∧ status ≤ 299)) ∧
    (Picket.tokenOwnershipResult status data = Except.error data ↔
       ¬(200 ≤ status ∧ status ≤ 299)) ∧
    (Picket.chainInfoResult status data = Except.error data ↔ ¬(200 ≤ status ∧ status ≤ 299)) ∧
    (Picket.chainsResult status data = Except.error data ↔ ¬(200 ≤ status ∧ status ≤ 299)) := by
  have h := succ_code_iff status
  by_cases hs : isSuccessfulStatusCode status = true
  · have hr := h.mp hs
    simp [Picket.nonceResult, Picket.authResult, Picket.authzResult, Picket.validateResult,
      Picket.tokenOwnershipResult, Picket.chainInfoResult, Picket.chainsResult, hs,
      hr.1, hr.2]
  · have hr : ¬(200 ≤ status ∧ status ≤ 299) := fun hc => hs (h.mpr hc)
    simp only [Bool.not_eq_true] at hs
    simp [Picket.nonceResult, Picket.authResult, Picket.authzResult, Picket.validateResult,
      Picket.tokenOwnershipResult, Picket.chainInfoResult, Picket.chainsResult, hs, hr]

/-- C2: constructing a `Picket` with an empty (or, in JavaScript, missing —
both falsy) API key fails immediately with the configuration error
"Missing secret key"; no client value exists for which headers could be
built. -/
theorem make_empty_key_fails (apiKey : String) (h : apiKey = "") :
    Picket.make apiKey = Except.error "Missing secret key" ∧
    ∀ p : Picket, Picket.make apiKey ≠ Except.ok p := by
  subst h
  refine ⟨rfl, fun p hp => ?_⟩
  rw [Picket.make, if_pos rfl] at hp
  exact Except.noConfusion hp

/-- C2 witness: the constructor rejects the concrete empty key. -/
theorem make_empty_key_fails_witness :
    Picket.make "" = Except.error "Missing secret key" ∧
    ∀ p : Picket, Picket.make "" ≠ Except.ok p :=
  make_empty_key_fails "" rfl

/-- C3: every request actually issued by any operation of a successfully
constructed client carries exactly the default headers: the client
identification string, the content-type marker and
`Authorization: Basic <base64(apiKey)>` — the key alone, no username
component; the value depends only on the client's key, hence is identical
across calls. -/
theorem issued_requests_carry_basic_auth (k : String) (p : Picket) (req : HttpRequest)
    (hp : Picket.make k = Except.ok p) (hreq : IssuedBy p req) :
    req.headers = [("User-Agent", "picket-node/0.0.10"),
                   ("Content-Type", "application/json"),
                   ("Authorization", "Basic " ++ base64Encode k)] := by
  have hk : p = { baseURL := BASE_API_URL, apiKey := k } := by
    by_cases h0 : k = ""
    · rw [Picket.make, if_pos h0] at hp
      exact Except.noConfusion hp
    · rw [Picket.make, if_neg h0] at hp
      injection hp with h'
      exact h'.symm
  subst hk
  exact issued_headers _ _ hreq

/-- C3 witness: the `chains` request of the client built from the key "k"
carries the three default headers, with `base64("k") = "aw=="`. -/
theorem issued_requests_carry_basic_auth_witness :
    ({ method := "GET", url := BASE_API_URL ++ "/chains",
       headers := Picket.defaultHeaders demoClient,
       body := none } : HttpRequest).headers =
      [("User-Agent", "picket-node/0.0.10"),
       ("Content-Type", "application/json"),
       ("Authorization", "Basic " ++ base64Encode "k")] ∧
    base64Encode "k" = "aw==" :=
  ⟨issued_requests_carry_basic_auth "k" demoClient _ rfl
      (Or.inr (Or.inr (Or.inr (Or.inr (Or.inr (Or.inr rfl)))))),
   rfl⟩

/-- C4: `auth` with a falsy wallet address throws the error naming
walletAddress; with a truthy wallet address and falsy signature it throws the
error naming signature; in either failure case no network request is issued. -/
theorem auth_local_validation (p : Picket) (r : AuthRequest) :
    (r.walletAddress = "" →
       p.auth r = CallStep.thrown "walletAddress parameter is required - see docs for reference.") ∧
    (r.walletAddress ≠ "" → r.signature = "" →
       p.auth r = CallStep.thrown "signature parameter is required - see docs for reference.") ∧
    ((r.walletAddress = "" ∨ r.signature = "") → (p.auth r).isSend = false) := by
  refine ⟨fun hw => ?_, fun hw hs => ?_, fun hor => ?_⟩
  · simp [Picket.auth, hw]
  · simp [Picket.auth, hw, hs]
  · rcases hor with hw | hs
    · simp [Picket.auth, hw, CallStep.isSend]
    · by_cases hw : r.walletAddress = ""
      · simp [Picket.auth, hw, CallStep.isSend]
      · simp [Picket.auth, hw, hs, CallStep.isSend]

/-- C4 witness: concrete calls with a missing wallet address and a missing
signature each throw the matching error and send nothing. -/
theorem auth_local_validation_witness :
    (Picket.auth demoClient
        { chain := none, walletAddress := "", signature := "s",
          requirements := none, context := none } =
      CallStep.thrown "walletAddress parameter is required - see docs for reference.") ∧
    (Picket.auth demoClient
        { chain := none, walletAddress := "w", signature := "",
          requirements := none, context := none } =
      CallStep.thrown "signature parameter is required - see docs for reference.") ∧
    ((Picket.auth demoClient
        { chain := none, walletAddress := "", signature := "s",
          requirements := none, context := none }).isSend = false) :=
  ⟨(auth_local_validation demoClient
      { chain := none, walletAddress := "", signature := "s",
        requirements := none, context := none }).1 rfl,
   (auth_local_validation demoClient
      { chain := none, walletAddress := "w", signature := "",
        requirements := none, context := none }).2.1 (by decide) rfl,
   (auth_local_validation demoClient
      { chain := none, walletAddress := "", signature := "s",
        requirements := none, context := none }).2.2 (Or.inl rfl)⟩

/-- C5: `tokenOwnership` with a non-empty wallet address: when the resolved
chain is solana, an absent `tokenIds` throws locally; when the resolved chain
is not solana, an absent or empty `contractAddress` throws locally; supplying
the chain-appropriate field lets the request go out. -/
theorem tokenOwnership_chain_validation (p : Picket) (r : TokenOwnershipRequest)
    (hw : r.walletAddress ≠ "") :
    (r.chain.getD ChainTypes.ETH = ChainTypes.SOL → r.tokenIds = none →
       p.tokenOwnership r = CallStep.thrown
         ("tokenIds parameter is required for " ++ ChainTypes.SOL ++ " - see docs for reference.")) ∧
    (r.chain.getD ChainTypes.ETH ≠ ChainTypes.SOL → strFalsy r.contractAddress = true →
       p.tokenOwnership r = CallStep.thrown
         "contractAddress parameter is required for EVM chains - see docs for reference.") ∧
    (r.chain.getD ChainTypes.ETH = ChainTypes.SOL → ∀ ids, r.tokenIds = some ids →
       (p.tokenOwnership r).isSend = true) ∧
    (r.chain.getD ChainTypes.ETH ≠ ChainTypes.SOL → ∀ c, r.contractAddress = some c → c ≠ "" →
       (p.tokenOwnership r).isSend = true) := by
  refine ⟨fun hc ht => ?_, fun hc hca => ?_, fun hc ids hids => ?_, fun hc c hca hcne => ?_⟩
  · simp [Picket.tokenOwnership, hw, hc, ht]
  · simp [Picket.tokenOwnership, hw, hc, hca]
  · simp [Picket.tokenOwnership, hw, hc, hids, CallStep.isSend]
  · simp [Picket.tokenOwnership, hw, hc, hca, hcne, strFalsy, CallStep.isSend]

/-- C5 witness: the four cases at concrete inputs — solana without tokenIds
throws, ethereum without contractAddress throws, and each chain-appropriate
field lets the request out. -/
theorem tokenOwnership_chain_validation_witness :
    (Picket.tokenOwnership demoClient
        { chain := some "solana", walletAddress := "w", contractAddress := none,
          tokenIds := none, minTokenBalance := none } =
      CallStep.thrown
        ("tokenIds parameter is required for " ++ ChainTypes.SOL ++ " - see docs for reference.")) ∧
    (Picket.tokenOwnership demoClient
        { chain := none, walletAddress := "w", contractAddress := none,
          tokenIds := none, minTokenBalance := none } =
      CallStep.thrown
        "contractAddress parameter is required for EVM chains - see docs for reference.") ∧
    ((Picket.tokenOwnership demoClient
        { chain := some "solana", walletAddress := "w", contractAddress := none,
          tokenIds := some ["t"], minTokenBalance := none }).isSend = true) ∧
    ((Picket.tokenOwnership demoClient
        { chain := none, walletAddress := "w", contractAddress := some "c",
          tokenIds := none, minTokenBalance := none }).isSend = true) :=
  ⟨(tokenOwnership_chain_validation demoClient
      { chain := some "solana", walletAddress := "w", contractAddress := none,
        tokenIds := none, minTokenBalance := none } (by decide)).1 rfl rfl,
   (tokenOwnership_chain_validation demoClient
      { chain := none, walletAddress := "w", contractAddress := none,
        tokenIds := none, minTokenBalance := none } (by decide)).2.1 (by decide) rfl,
   (tokenOwnership_chain_validation demoClient
      { chain := some "solana", walletAddress := "w", contractAddress := none,
        tokenIds := some ["t"], minTokenBalance := none } (by decide)).2.2.1 rfl ["t"] rfl,
   (tokenOwnership_chain_validation demoClient
      { chain := none, walletAddress := "w", contractAddress := some "c",
        tokenIds := none, minTokenBalance := none } (by decide)).2.2.2 (by decide) "c" rfl
     (by decide)⟩

/-- C6 counterexample: `nonce` with an empty wallet address does NOT fail
locally — the request is issued anyway, with the empty wallet address in the
body, refuting the claim that no network call happens. -/
theorem nonce_empty_wallet_sends_anyway :
    Picket.nonce demoClient { chain := none, walletAddress := "", locale := none } =
      CallStep.send
        { method := "POST"
          url := BASE_API_URL ++ "/auth/nonce"
          headers := Picket.defaultHeaders demoClient
          body := some (JValue.obj
            [("chain", JValue.str "ethereum"),
             ("walletAddress", JValue.str "")]) } := rfl

/-- C6 amended: `nonce` performs no local validation at all — every call,
whatever the wallet address (empty included), issues exactly one POST to
`/auth/nonce` with the given wallet address in the body. -/
theorem nonce_always_sends (p : Picket) (r : NonceRequest) :
    p.nonce r = CallStep.send
      { method := "POST"
        url := p.baseURL ++ "/auth/nonce"
        headers := p.defaultHeaders
        body := some (JValue.obj
          [("chain", JValue.str (r.chain.getD ChainTypes.ETH)),
           ("walletAddress", JValue.str r.walletAddress)]) } := rfl

/-- C7: `validate` with an empty access token locally rejects with
"access token is empty" before any network call; `authz` with a falsy access
token, or with a truthy token but missing requirements, throws the matching
local error before any network call. -/
theorem validate_authz_local_validation (p : Picket) (reqs : Option JValue)
    (r : AuthzRequest) :
    (p.validate "" reqs = CallStep.rejected "access token is empty") ∧
    (r.accessToken = "" →
       p.authz r = CallStep.thrown "accessToken parameter is required - see docs for reference.") ∧
    (r.accessToken ≠ "" → r.requirements = none →
       p.authz r = CallStep.thrown "requirements parameter is required - see docs for reference.") := by
  refine ⟨rfl, fun ha => ?_, fun ha hr => ?_⟩
  · simp [Picket.authz, ha]
  · simp [Picket.authz, ha, hr]

/-- C7 witness: the three local-failure cases at concrete inputs. -/
theorem validate_authz_local_validation_witness :
    (Picket.validate demoClient "" none = CallStep.rejected "access token is empty") ∧
    (Picket.authz demoClient { accessToken := "", requirements := none, revalidate := none } =
       CallStep.thrown "accessToken parameter is required - see docs for reference.") ∧
    (Picket.authz demoClient { accessToken := "t", requirements := none, revalidate := none } =
       CallStep.thrown "requirements parameter is required - see docs for reference.") :=
  ⟨(validate_authz_local_validation demoClient none
      { accessToken := "", requirements := none, revalidate := none }).1,
   (validate_authz_local_validation demoClient none
      { accessToken := "", requirements := none, revalidate := none }).2.1 rfl,
   (validate_authz_local_validation demoClient none
      { accessToken := "t", requirements := none, revalidate := none }).2.2 (by decide) rfl⟩

/-- C8 counterexample: `chainInfo` with an empty chain identifier does NOT
fail locally — the GET request is issued anyway (to the bare `/chains/` URL),
refuting the claim that an empty chain yields a local validation failure. -/
theorem chainInfo_empty_chain_sends_anyway :
    Picket.chainInfo demoClient "" =
      CallStep.send
        { method := "GET"
          url := BASE_API_URL ++ "/chains/"
          headers := Picket.defaultHeaders demoClient
          body := none } := by
  simp [Picket.chainInfo, demoClient]

/-- C8 amended: `chainInfo` performs no local validation at all — for every
chain string, the empty string included, it issues exactly one GET to
`/chains/{chain}` with no further local checks. -/
theorem chainInfo_no_local_checks (p : Picket) (chain : String) :
    p.chainInfo chain = CallStep.send
      { method := "GET"
        url := p.baseURL ++ "/chains/" ++ chain
        headers := p.defaultHeaders
        body := none } := rfl

/-- C9: for `nonce`, `auth` and `tokenOwnership` the chain resolves by
`Option.getD` — `ChainTypes.ETH` (= "ethereum") when the field is absent, the
supplied value unchanged (empty string included) otherwise — and that resolved
value is what appears in the request (body field for nonce/auth, URL path for
tokenOwnership). -/
theorem chain_defaults_to_ethereum (p : Picket) (rn : NonceRequest) (ra : AuthRequest)
    (rt : TokenOwnershipRequest)
    (haw : ra.walletAddress ≠ "") (has : ra.signature ≠ "")
    (htw : rt.walletAddress ≠ "") (hti : ∃ ids, rt.tokenIds = some ids)
    (htc : ∃ c, rt.contractAddress = some c ∧ c ≠ "") :
    ChainTypes.ETH = "ethereum" ∧
    (∀ o : Option String, o.getD ChainTypes.ETH = match o with
      | none => "ethereum"
      | some c => c) ∧
    (∃ req, p.nonce rn = CallStep.send req ∧
       req.body = some (JValue.obj
         [("chain", JValue.str (rn.chain.getD ChainTypes.ETH)),
          ("walletAddress", JValue.str rn.walletAddress)])) ∧
    (∃ req, p.auth ra = CallStep.send req ∧
       req.body = some (JValue.obj
         ([("chain", JValue.str (ra.chain.getD ChainTypes.ETH)),
           ("walletAddress", JValue.str ra.walletAddress),
           ("signature", JValue.str ra.signature)]
          ++ optField "requirements" ra.requirements
          ++ optField "context" ra.context))) ∧
    (∃ req, p.tokenOwnership rt = CallStep.send req ∧
       req.url = p.baseURL ++ "/chains/" ++ rt.chain.getD ChainTypes.ETH ++ "/wallets/"
         ++ rt.walletAddress ++ "/tokenOwnership") := by
  obtain ⟨ids, hids⟩ := hti
  obtain ⟨c, hc, hcne⟩ := htc
  refine ⟨rfl, fun o => ?_, ⟨_, rfl, rfl⟩, ?_, ?_⟩
  · cases o <;> rfl
  · refine ⟨{ method := "POST"
              url := p.baseURL ++ "/auth"
              headers := p.defaultHeaders
              body := some (JValue.obj
                ([("chain", JValue.str (ra.chain.getD ChainTypes.ETH)),
                  ("walletAddress", JValue.str ra.walletAddress),
                  ("signature", JValue.str ra.signature)]
                 ++ optField "requirements" ra.requirements
                 ++ optField "context" ra.context)) }, ?_, rfl⟩
    simp [Picket.auth, haw, has]
  · refine ⟨{ method := "POST"
              url := p.baseURL ++ "/chains/" ++ rt.chain.getD ChainTypes.ETH ++ "/wallets/"
                       ++ rt.walletAddress ++ "/tokenOwnership"
              headers := p.defaultHeaders
              body := some (JValue.obj
                (optField "contractAddress" ((rt.contractAddress).map JValue.str)
                 ++ optField "minTokenBalance" rt.minTokenBalance
                 ++ optField "tokenIds"
                     ((rt.tokenIds).map (fun l => JValue.arr (l.map JValue.str))))) }, ?_, rfl⟩
    simp [Picket.tokenOwnership, htw, hids, hc, hcne, strFalsy]

/-- C9 witness: concrete calls — nonce and auth with an omitted chain put
"ethereum" in the body; tokenOwnership with an omitted chain puts "ethereum"
in the URL path. -/
theorem chain_defaults_to_ethereum_witness :
    ChainTypes.ETH = "ethereum" ∧
    (∀ o : Option String, o.getD ChainTypes.ETH = match o with
      | none => "ethereum"
      | some c => c) ∧
    (∃ req, Picket.nonce demoClient { chain := none, walletAddress := "w", locale := none } =
        CallStep.send req ∧
       req.body = some (JValue.obj
         [("chain", JValue.str ((none : Option String).getD ChainTypes.ETH)),
          ("walletAddress", JValue.str "w")])) ∧
    (∃ req, Picket.auth demoClient
        { chain := none, walletAddress := "w", signature := "s",
          requirements := none, context := none } = CallStep.send req ∧
       req.body = some (JValue.obj
         ([("chain", JValue.str ((none : Option String).getD ChainTypes.ETH)),
           ("walletAddress", JValue.str "w"),
           ("signature", JValue.str "s")]
          ++ optField "requirements" none
          ++ optField "context" none))) ∧
    (∃ req, Picket.tokenOwnership demoClient
        { chain := none, walletAddress := "w", contractAddress := some "c",
          tokenIds := some ["t"], minTokenBalance := none } = CallStep.send req ∧
       req.url = demoClient.baseURL ++ "/chains/" ++ (none : Option String).getD ChainTypes.ETH
         ++ "/wallets/" ++ "w" ++ "/tokenOwnership") :=
  chain_defaults_to_ethereum demoClient
    { chain := none, walletAddress := "w", locale := none }
    { chain := none, walletAddress := "w", signature := "s",
      requirements := none, context := none }
    { chain := none, walletAddress := "w", contractAddress := some "c",
      tokenIds := some ["t"], minTokenBalance := none }
    (by decide) (by decide) (by decide) ⟨["t"], rfl⟩ ⟨"c", rfl, by decide⟩

/-- C10: the serialized `nonce` body holds exactly the fields `chain` and
`walletAddress`, and the call's outcome is unchanged by any supplied `locale`
— the optional `NonceRequest.locale` member is never transmitted. -/
theorem nonce_body_exact_fields (p : Picket) (r : NonceRequest) :
    (∃ req, p.nonce r = CallStep.send req ∧
       req.body = some (JValue.obj
         [("chain", JValue.str (r.chain.getD ChainTypes.ETH)),
          ("walletAddress", JValue.str r.walletAddress)])) ∧
    (∀ l, p.nonce { r with locale := l } = p.nonce r) :=
  ⟨⟨_, rfl, rfl⟩, fun _ => rfl⟩
